import Mathlib

/-!
Shallow embedding of the `cygnixy-plugin-interface` crate (`src/lib.rs`).

The crate is a host-side plugin manager: a `PluginManager` owns loaded
plugin instances (a `HashMap<String, Box<dyn PluginLua>>`) and the opened
dynamic-library handles (a `Vec<Library>`), runs the lifecycle protocol
(`load -> on_load -> register -> on_unload -> drop`), and bridges each
plugin's Lua callables into a Lua environment.

Modelling choices:
- A `Box<dyn PluginLua>` trait object is modelled by the structure
  `PluginLua`, recording the plugin's name, the (scripted) results its
  `on_load` / `on_unload` methods return, and its callable map
  (`get_lua_functions`), with Lua functions abstracted to `Nat` ids.
- The `HashMap` of plugins is modelled as an association list with
  HashMap semantics (`mapGet` finds the entry, `mapInsert` replaces the
  slot for an existing key, `mapRemove` removes the key).
- The external dynamic-library collaborator is modelled by a
  `LibraryFile` record saying whether `Library::new` succeeds, whether
  the `create_plugin` symbol resolves, which plugin instance the factory
  manufactures, and an opaque `Nat` id for the OS library handle.
- Side effects that Rust performs implicitly (calling `on_load` /
  `on_unload`, dropping an instance, a `Library` value being dropped and
  hence the OS handle released) are recorded in an explicit `Event`
  trace, in the order Rust performs them (locals drop in reverse
  declaration order; struct fields drop in declaration order after the
  `Drop::drop` body runs).
- The Lua environment (`mlua::Lua`) is modelled by a `Lua` state holding
  a heap of tables and the globals table, with fault injection: the
  environment operation with ordinal `failAt` fails, as mlua operations
  may.
-/

instance {ε α : Type} [DecidableEq ε] [DecidableEq α] : DecidableEq (Except ε α) :=
  fun a b =>
    match a, b with
    | .ok x, .ok y =>
        if h : x = y then isTrue (by rw [h]) else
          isFalse (by intro hc; cases hc; exact h rfl)
    | .error s, .error t =>
        if h : s = t then isTrue (by rw [h]) else
          isFalse (by intro hc; cases hc; exact h rfl)
    | .ok _, .error _ => isFalse (by intro hc; cases hc)
    | .error _, .ok _ => isFalse (by intro hc; cases hc)

/-- Model of a `Box<dyn PluginLua>` trait object: the plugin's name and the
scripted behaviour of its lifecycle methods and callable query. -/
structure PluginLua where
  name : String
  on_load : Except String Unit
  on_unload : Except String Unit
  get_lua_functions : List (String × Nat)
deriving DecidableEq

/-- Association-list lookup with `HashMap::get` semantics. -/
def mapGet {α : Type} (k : String) : List (String × α) → Option α
  | [] => none
  | (k', v) :: rest => if k' = k then some v else mapGet k rest

/-- Association-list insertion with `HashMap::insert` semantics: replaces
the slot of an existing key, otherwise appends. -/
def mapInsert {α : Type} (k : String) (v : α) : List (String × α) → List (String × α)
  | [] => [(k, v)]
  | (k', v') :: rest => if k' = k then (k, v) :: rest else (k', v') :: mapInsert k v rest

/-- Association-list removal with `HashMap::remove` semantics: the key is
absent afterwards. -/
def mapRemove {α : Type} (k : String) (m : List (String × α)) : List (String × α) :=
  m.filter (fun e => e.1 ≠ k)

/-- Model of the `PluginManager` struct: the name-indexed plugin map and the
load-order list of opened library handles. -/
structure PluginManager where
  plugins : List (String × PluginLua)
  libraries : List Nat
deriving DecidableEq

/-- `PluginManager::new`. -/
def PluginManager.new : PluginManager :=
  { plugins := [], libraries := [] }

/-- Errors a `PluginManager` operation can return (the Rust code returns
`Box<dyn Error>`; the variants record which step produced the error). -/
inductive PMError where
  | openFailed
  | symbolNotFound
  | onLoadFailed (msg : String)
  | onUnloadFailed (msg : String)
deriving DecidableEq

/-- Observable side effects of the Rust code, in the order Rust performs
them: lifecycle calls, destructor runs of plugin instances, release of an
OS library handle (drop of a `libloading::Library`), and logging. -/
inductive Event where
  | onLoad (name : String)
  | onUnload (name : String)
  | dropInstance (name : String)
  | releaseLibrary (lib : Nat)
  | logError (msg : String)
deriving DecidableEq

/-- Whether an event is an `on_unload` lifecycle call. -/
def isUnloadEvent : Event → Bool
  | .onUnload _ => true
  | _ => false

/-- Whether an event is the release of an OS library handle. -/
def isReleaseEvent : Event → Bool
  | .releaseLibrary _ => true
  | _ => false

/-- Whether an event is a logged error. -/
def isLogEvent : Event → Bool
  | .logError _ => true
  | _ => false

/-- Model of the dynamic-library collaborator's behaviour for one path:
whether `Library::new` succeeds, whether the `create_plugin` symbol
resolves, the opaque id of the OS handle, and the plugin instance the
factory manufactures. -/
structure LibraryFile where
  openOk : Bool
  symbolOk : Bool
  libId : Nat
  plugin : PluginLua
deriving DecidableEq

/-- `PluginManager::load_plugin`: open the library, resolve `create_plugin`,
take ownership of the manufactured instance, run `on_load` (on failure the
`?` early-returns, dropping the instance and the `Library` local — the
library is pushed onto `self.libraries` only after `on_load` succeeds),
then index the instance by name and retain the library handle. -/
def load_plugin (m : PluginManager) (file : LibraryFile) :
    Except PMError Unit × PluginManager × List Event :=
  if file.openOk = false then
    (.error .openFailed, m, [])
  else if file.symbolOk = false then
    (.error .symbolNotFound, m, [.releaseLibrary file.libId])
  else
    match file.plugin.on_load with
    | .error e =>
        (.error (.onLoadFailed e), m,
          [.onLoad file.plugin.name, .dropInstance file.plugin.name,
           .releaseLibrary file.libId])
    | .ok _ =>
        (.ok (),
          { plugins := mapInsert file.plugin.name file.plugin m.plugins,
            libraries := m.libraries ++ [file.libId] },
          [.onLoad file.plugin.name] ++
            (match mapGet file.plugin.name m.plugins with
             | some old => [.dropInstance old.name]
             | none => []))

/-- `PluginManager::unload_plugin`: remove the named entry if present, then
call `on_unload` on it (an `on_unload` error propagates, but the removal
already happened); an absent name is a no-op success. -/
def unload_plugin (m : PluginManager) (name : String) :
    Except PMError Unit × PluginManager × List Event :=
  match mapGet name m.plugins with
  | some plugin =>
      ((match plugin.on_unload with
        | .error e => .error (.onUnloadFailed e)
        | .ok _ => .ok ()),
       { m with plugins := mapRemove name m.plugins },
       [.onUnload name, .dropInstance plugin.name])
  | none => (.ok (), m, [])

/-- `PluginManager::get_plugin`: read-only lookup by name. -/
def get_plugin (m : PluginManager) (name : String) : Option PluginLua :=
  mapGet name m.plugins

/-- `PluginManager::register_plugin_instance`: run `on_load` on the given
instance (an error propagates and the instance is dropped), then index it
by name; no library handle is involved. -/
def register_plugin_instance (m : PluginManager) (plugin : PluginLua) :
    Except PMError Unit × PluginManager × List Event :=
  match plugin.on_load with
  | .error e =>
      (.error (.onLoadFailed e), m,
        [.onLoad plugin.name, .dropInstance plugin.name])
  | .ok _ =>
      (.ok (),
        { m with plugins := mapInsert plugin.name plugin m.plugins },
        [.onLoad plugin.name] ++
          (match mapGet plugin.name m.plugins with
           | some old => [.dropInstance old.name]
           | none => []))

/-- The `Drop::drop` body for `PluginManager`, restricted to the plugin map:
drain every entry, call `on_unload` on it, log (never propagate) any
error, and drop the instance. -/
def dropPlugins : List (String × PluginLua) → List Event
  | [] => []
  | (_, p) :: rest =>
      Event.onUnload p.name ::
        ((match p.on_unload with
          | .error e => [Event.logError e]
          | .ok _ => []) ++
         (Event.dropInstance p.name :: dropPlugins rest))

/-- Teardown of a `PluginManager` (Rust `Drop`): the `drop` body drains the
plugin map calling `on_unload` on each entry, and only afterwards do the
struct's fields drop, releasing every library handle in load order. -/
def dropManager (m : PluginManager) : List Event :=
  dropPlugins m.plugins ++ m.libraries.map Event.releaseLibrary

/-- Model of an `mlua::Lua` state: a heap of tables (indexed by creation
order), the globals mapping a name to a table id, an operation counter, and
a fault-injection point: the environment operation with ordinal `failAt`
fails. -/
structure Lua where
  tables : List (List (String × Nat))
  globals : List (String × Nat)
  opCount : Nat
  failAt : Option Nat
deriving DecidableEq

/-- `Lua::create_table`: allocates a fresh empty table and returns its id;
fails if this operation is the fault-injection point. -/
def create_table (L : Lua) : Except String (Nat × Lua) :=
  if L.failAt = some L.opCount then .error "create_table failed"
  else .ok (L.tables.length,
    { L with tables := L.tables ++ [[]], opCount := L.opCount + 1 })

/-- `Table::set`: installs a callable under `name` in table `tid`; fails if
this operation is the fault-injection point. -/
def table_set (L : Lua) (tid : Nat) (name : String) (f : Nat) : Except String Lua :=
  if L.failAt = some L.opCount then .error "table set failed"
  else .ok
    { L with
      tables := L.tables.set tid (mapInsert name f (L.tables.getD tid [])),
      opCount := L.opCount + 1 }

/-- `lua.globals().set`: installs table `tid` under `name` in the global
scope; fails if this operation is the fault-injection point. -/
def globals_set (L : Lua) (name : String) (tid : Nat) : Except String Lua :=
  if L.failAt = some L.opCount then .error "globals set failed"
  else .ok
    { L with globals := mapInsert name tid L.globals, opCount := L.opCount + 1 }

/-- The inner loop of `register_all_plugins`: install each callable of the
plugin into its namespace table, aborting at the first failure (the
environment keeps whatever was already installed). -/
def setFunctions (tid : Nat) : Lua → List (String × Nat) → Except String Unit × Lua
  | L, [] => (.ok (), L)
  | L, (n, f) :: rest =>
      match table_set L tid n f with
      | .error e => (.error e, L)
      | .ok L' => setFunctions tid L' rest

/-- One iteration of `register_all_plugins`: create a namespace table, fill
it with the plugin's callables, then install it as a global under the
plugin's name; the first failing environment operation aborts the
iteration, leaving the environment as it was at that point. -/
def register_one_plugin (L : Lua) (p : PluginLua) : Except String Unit × Lua :=
  match create_table L with
  | .error e => (.error e, L)
  | .ok (tid, L1) =>
      match setFunctions tid L1 p.get_lua_functions with
      | (.error e, L2) => (.error e, L2)
      | (.ok _, L2) =>
          match globals_set L2 p.name tid with
          | .error e => (.error e, L2)
          | .ok L3 => (.ok (), L3)

/-- The loop of `register_all_plugins` over the registry's entries: the
first error aborts the whole call; earlier installs are not rolled back. -/
def registerPlugins : List (String × PluginLua) → Lua → Except String Unit × Lua
  | [], L => (.ok (), L)
  | (_, p) :: rest, L =>
      match register_one_plugin L p with
      | (.error e, L') => (.error e, L')
      | (.ok _, L') => registerPlugins rest L'

/-- `PluginManager::register_all_plugins`: for every indexed plugin, create
a namespace table, install its callables in it, and install the table as a
global under the plugin's name; the first error aborts the call. -/
def register_all_plugins (m : PluginManager) (L : Lua) : Except String Unit × Lua :=
  registerPlugins m.plugins L

/-! Concrete fixtures used by witnesses and counterexamples. -/

/-- A plugin whose lifecycle methods succeed. -/
def pluginOk : PluginLua := ⟨"alpha", .ok (), .ok (), [("f", 0)]⟩

/-- A plugin whose `on_load` fails. -/
def pluginBadLoad : PluginLua := ⟨"beta", .error "boom", .ok (), []⟩

/-- A plugin whose `on_unload` fails. -/
def pluginBadUnload : PluginLua := ⟨"gamma", .ok (), .error "bye", []⟩

/-- A second plugin named `alpha`, to exercise name replacement. -/
def pluginOk2 : PluginLua := ⟨"alpha", .ok (), .ok (), [("h", 3)]⟩

/-- A registry holding `pluginOk` and one library handle. -/
def managerAlpha : PluginManager := ⟨[("alpha", pluginOk)], [5]⟩

/-- A registry holding `pluginBadUnload` and one library handle. -/
def managerGamma : PluginManager := ⟨[("gamma", pluginBadUnload)], [2]⟩

/-- A library file that opens, resolves, and whose plugin loads fine. -/
def fileOk : LibraryFile := ⟨true, true, 7, pluginOk⟩

/-- A library file whose plugin's `on_load` fails. -/
def fileBadLoad : LibraryFile := ⟨true, true, 7, pluginBadLoad⟩

/-- A library file manufacturing the second `alpha` plugin. -/
def fileOk2 : LibraryFile := ⟨true, true, 9, pluginOk2⟩

/-- Plugin `A` exposing callable `f`. -/
def pluginA : PluginLua := ⟨"A", .ok (), .ok (), [("f", 0)]⟩

/-- Plugin `B` exposing callable `g`. -/
def pluginB : PluginLua := ⟨"B", .ok (), .ok (), [("g", 1)]⟩

/-- Plugin `A` exposing a callable named `run`. -/
def pluginRunA : PluginLua := ⟨"A", .ok (), .ok (), [("run", 10)]⟩

/-- Plugin `B` also exposing a callable named `run`. -/
def pluginRunB : PluginLua := ⟨"B", .ok (), .ok (), [("run", 20)]⟩

/-- The registry {A -> {f}, B -> {g}}. -/
def managerAB : PluginManager := ⟨[("A", pluginA), ("B", pluginB)], []⟩

/-- The registry with two plugins both exposing `run`. -/
def managerRun : PluginManager := ⟨[("A", pluginRunA), ("B", pluginRunB)], []⟩

/-- A fresh Lua environment in which every operation succeeds. -/
def luaEmpty : Lua := ⟨[], [], 0, none⟩

/-- A fresh Lua environment whose fourth operation fails. -/
def luaFailing : Lua := ⟨[], [], 0, some 3⟩

/-! Association-list lemmas. -/

theorem mapGet_insert_self {α : Type} (k : String) (v : α) (m : List (String × α)) :
    mapGet k (mapInsert k v m) = some v := by
  induction m with
  | nil => simp [mapInsert, mapGet]
  | cons e rest ih =>
      obtain ⟨k', v'⟩ := e
      by_cases h : k' = k
      · simp [mapInsert, h, mapGet]
      · simp [mapInsert, h, mapGet, ih]

theorem mapGet_insert_isSome {α : Type} (j k : String) (v : α) (m : List (String × α))
    (h : (mapGet j m).isSome = true) :
    (mapGet j (mapInsert k v m)).isSome = true := by
  induction m with
  | nil => simp [mapGet] at h
  | cons e rest ih =>
      obtain ⟨k', v'⟩ := e
      by_cases hk : k' = k
      · by_cases hj : k' = j <;> simp_all [mapInsert, mapGet]
      · by_cases hj : k' = j <;> simp_all [mapInsert, mapGet]

theorem mapGet_remove_self {α : Type} (k : String) (m : List (String × α)) :
    mapGet k (mapRemove k m) = none := by
  induction m with
  | nil => simp [mapRemove, mapGet]
  | cons e rest ih =>
      obtain ⟨k', v'⟩ := e
      by_cases h : k' = k
      · simpa [mapRemove, List.filter_cons, h] using ih
      · simpa [mapRemove, List.filter_cons, h, mapGet] using ih

/-- Unloading an absent name is a no-op success. -/
theorem unload_absent (m : PluginManager) (name : String)
    (h : mapGet name m.plugins = none) :
    unload_plugin m name = (.ok (), m, []) := by
  simp [unload_plugin, h]

/-- Claim C3: a successful `load_plugin` or `register_plugin_instance` makes
an immediately following `get_plugin` on that plugin's name return the
just-loaded instance, and `get_plugin` on a name not present in the
registry returns `none` (it cannot fail). -/
theorem load_then_get_plugin (m : PluginManager) (file : LibraryFile) (p : PluginLua) :
    ((load_plugin m file).1 = .ok () →
      get_plugin (load_plugin m file).2.1 file.plugin.name = some file.plugin) ∧
    ((register_plugin_instance m p).1 = .ok () →
      get_plugin (register_plugin_instance m p).2.1 p.name = some p) ∧
    (∀ name, mapGet name m.plugins = none → get_plugin m name = none) := by
  refine ⟨?_, ?_, ?_⟩
  · intro h
    unfold load_plugin at h ⊢
    by_cases ho : file.openOk = false
    · simp [ho] at h
    · by_cases hs : file.symbolOk = false
      · simp [ho, hs] at h
      · rw [if_neg ho, if_neg hs] at h ⊢
        cases hl : file.plugin.on_load with
        | error e => rw [hl] at h; simp at h
        | ok u => simp [get_plugin, mapGet_insert_self]
  · intro h
    unfold register_plugin_instance at h ⊢
    cases hl : p.on_load with
    | error e => rw [hl] at h; simp at h
    | ok u => simp [get_plugin, mapGet_insert_self]
  · intro name h
    simp [get_plugin, h]

/-- Claim C3 witness. -/
theorem load_then_get_plugin_witness :
    get_plugin (load_plugin PluginManager.new fileOk).2.1 "alpha" = some pluginOk :=
  (load_then_get_plugin PluginManager.new fileOk pluginOk).1 (by decide)

/-- Claim C4: unloading a name that is not present in the registry returns
success, and `unload_plugin` applied twice in a row with the same name
never errors on the second call. -/
theorem unload_plugin_idempotent (m : PluginManager) (name : String) :
    (mapGet name m.plugins = none → unload_plugin m name = (.ok (), m, [])) ∧
    (unload_plugin (unload_plugin m name).2.1 name).1 = .ok () := by
  constructor
  · intro h
    simp [unload_plugin, h]
  · cases h : mapGet name m.plugins with
    | none =>
        have h2 : mapGet name (unload_plugin m name).2.1.plugins = none := by
          simp [unload_plugin, h]
        simp [unload_absent _ _ h2]
    | some p =>
        have h2 : mapGet name (unload_plugin m name).2.1.plugins = none := by
          simp [unload_plugin, h, mapGet_remove_self]
        simp [unload_absent _ _ h2]

/-- Claim C4 witness. -/
theorem unload_plugin_idempotent_witness :
    unload_plugin PluginManager.new "ghost" = (.ok (), PluginManager.new, []) :=
  (unload_plugin_idempotent PluginManager.new "ghost").1 (by decide)

/-- Claim C9: `register_plugin_instance` never touches the library-handle
list, always runs `on_load` first, and on success the instance is indexed
under its name. -/
theorem register_plugin_instance_frame (m : PluginManager) (p : PluginLua) :
    (register_plugin_instance m p).2.1.libraries = m.libraries ∧
    (register_plugin_instance m p).2.2.head? = some (Event.onLoad p.name) ∧
    ((register_plugin_instance m p).1 = .ok () →
      p.on_load = .ok () ∧
      get_plugin (register_plugin_instance m p).2.1 p.name = some p) := by
  cases hl : p.on_load with
  | error e => simp [register_plugin_instance, hl]
  | ok u => simp [register_plugin_instance, hl, get_plugin, mapGet_insert_self]

/-- Claim C9 witness. -/
theorem register_plugin_instance_frame_witness :
    pluginOk.on_load = .ok () ∧
    get_plugin (register_plugin_instance PluginManager.new pluginOk).2.1 "alpha" =
      some pluginOk :=
  (register_plugin_instance_frame PluginManager.new pluginOk).2.2 (by rfl)

/-- The `on_unload` calls recorded by the drop body are exactly one per
drained entry, in iteration order. -/
theorem dropPlugins_filter_unload (ps : List (String × PluginLua)) :
    (dropPlugins ps).filter isUnloadEvent =
      ps.map (fun e => Event.onUnload e.2.name) := by
  induction ps with
  | nil => simp [dropPlugins]
  | cons e rest ih =>
      obtain ⟨k, p⟩ := e
      cases hu : p.on_unload <;>
        simp [dropPlugins, hu, List.filter_cons, List.filter_append, isUnloadEvent, ih]

/-- The drop body logs exactly the errors the drained plugins' `on_unload`
calls report. -/
theorem dropPlugins_filter_log (ps : List (String × PluginLua)) :
    (dropPlugins ps).filter isLogEvent =
      ps.filterMap (fun e =>
        match e.2.on_unload with
        | .error s => some (Event.logError s)
        | .ok _ => none) := by
  induction ps with
  | nil => simp [dropPlugins]
  | cons e rest ih =>
      obtain ⟨k, p⟩ := e
      cases hu : p.on_unload <;>
        simp [dropPlugins, hu, List.filter_cons, List.filter_append, isLogEvent,
          List.filterMap_cons, ih]

/-- The drop body releases no library handle. -/
theorem dropPlugins_filter_release (ps : List (String × PluginLua)) :
    (dropPlugins ps).filter isReleaseEvent = [] := by
  induction ps with
  | nil => simp [dropPlugins]
  | cons e rest ih =>
      obtain ⟨k, p⟩ := e
      cases hu : p.on_unload <;>
        simp [dropPlugins, hu, List.filter_cons, List.filter_append, isReleaseEvent, ih]

/-- No event of the drop body is a library release. -/
theorem dropPlugins_no_release (ps : List (String × PluginLua)) :
    ∀ ev ∈ dropPlugins ps, isReleaseEvent ev = false := by
  induction ps with
  | nil => simp [dropPlugins]
  | cons e rest ih =>
      obtain ⟨k, p⟩ := e
      intro ev hev
      cases hu : p.on_unload with
      | error s =>
          simp [dropPlugins, hu] at hev
          rcases hev with rfl | rfl | rfl | h
          · rfl
          · rfl
          · rfl
          · exact ih ev h
      | ok u =>
          simp [dropPlugins, hu] at hev
          rcases hev with rfl | rfl | h
          · rfl
          · rfl
          · exact ih ev h

/-- No event of the field-drop phase is an `on_unload` call. -/
theorem map_release_no_unload (libs : List Nat) :
    ∀ ev ∈ libs.map Event.releaseLibrary, isUnloadEvent ev = false := by
  intro ev hev
  simp [List.mem_map] at hev
  obtain ⟨l, _, rfl⟩ := hev
  rfl

/-- Filtering the field-drop phase for releases keeps everything. -/
theorem map_release_filter_release (libs : List Nat) :
    (libs.map Event.releaseLibrary).filter isReleaseEvent =
      libs.map Event.releaseLibrary := by
  induction libs with
  | nil => simp
  | cons l rest ih => simp [List.filter_cons, isReleaseEvent, ih]

/-- Filtering the field-drop phase for unloads or logs gives nothing. -/
theorem map_release_filter_other (libs : List Nat) :
    (libs.map Event.releaseLibrary).filter isUnloadEvent = [] ∧
    (libs.map Event.releaseLibrary).filter isLogEvent = [] := by
  induction libs with
  | nil => simp
  | cons l rest ih =>
      simp [List.filter_cons, isUnloadEvent, isLogEvent, ih.1, ih.2]

/-- In a trace `a ++ b` where `a` has no `Q`-event and `b` has no
`P`-event, every `P`-event strictly precedes every `Q`-event. -/
theorem append_event_ordering {α : Type} (P Q : α → Bool) (a b : List α)
    (hA : ∀ ev ∈ a, Q ev = false)
    (hB : ∀ ev ∈ b, P ev = false)
    (i j : Nat) (hi : i < (a ++ b).length) (hj : j < (a ++ b).length)
    (hu : P ((a ++ b).get ⟨i, hi⟩) = true)
    (hr : Q ((a ++ b).get ⟨j, hj⟩) = true) : i < j := by
  have hia : i < a.length := by
    by_contra hcon
    push_neg at hcon
    rw [List.get_eq_getElem, List.getElem_append_right hcon] at hu
    rw [hB _ (List.getElem_mem _)] at hu
    cases hu
  have hja : a.length ≤ j := by
    by_contra hcon
    push_neg at hcon
    rw [List.get_eq_getElem, List.getElem_append_left hcon] at hr
    rw [hA _ (List.getElem_mem _)] at hr
    cases hr
  omega

/-- Claim C2: registry teardown (`Drop`) invokes `on_unload` exactly once
for every plugin still indexed, logs (never propagates) each individual
`on_unload` error so every other plugin is still unloaded, and releases no
library handle until every `on_unload` call has completed: in the teardown
trace every `on_unload` event strictly precedes every release event, and
every library handle is released. -/
theorem drop_unloads_all_then_releases (m : PluginManager) :
    (dropManager m).filter isUnloadEvent =
      m.plugins.map (fun e => Event.onUnload e.2.name) ∧
    (dropManager m).filter isLogEvent =
      m.plugins.filterMap (fun e =>
        match e.2.on_unload with
        | .error s => some (Event.logError s)
        | .ok _ => none) ∧
    (dropManager m).filter isReleaseEvent = m.libraries.map Event.releaseLibrary ∧
    ∀ i j (hi : i < (dropManager m).length) (hj : j < (dropManager m).length),
      isUnloadEvent ((dropManager m).get ⟨i, hi⟩) = true →
      isReleaseEvent ((dropManager m).get ⟨j, hj⟩) = true → i < j := by
  refine ⟨?_, ?_, ?_, ?_⟩
  · rw [dropManager, List.filter_append, dropPlugins_filter_unload,
      (map_release_filter_other m.libraries).1, List.append_nil]
  · rw [dropManager, List.filter_append, dropPlugins_filter_log,
      (map_release_filter_other m.libraries).2, List.append_nil]
  · rw [dropManager, List.filter_append, dropPlugins_filter_release,
      map_release_filter_release, List.nil_append]
  · intro i j hi hj hu hr
    exact append_event_ordering isUnloadEvent isReleaseEvent
      (dropPlugins m.plugins) (m.libraries.map Event.releaseLibrary)
      (dropPlugins_no_release m.plugins) (map_release_no_unload m.libraries)
      i j hi hj hu hr

/-- Claim C2 witness: in the teardown trace of a one-plugin registry whose
`on_unload` fails, the `on_unload` event (index 0) precedes the library
release (index 3). -/
theorem drop_unloads_all_then_releases_witness : (0 : Nat) < 3 :=
  (drop_unloads_all_then_releases managerGamma).2.2.2 0 3
    (by decide) (by decide) (by decide) (by decide)

/-- A successful `table_set` touches only table `tid` and the counter. -/
theorem table_set_ok (L : Lua) (tid : Nat) (n : String) (f : Nat) (L' : Lua)
    (h : table_set L tid n f = .ok L') :
    L'.globals = L.globals ∧ L'.tables.length = L.tables.length ∧
    ∀ i, i ≠ tid → L'.tables.getD i [] = L.tables.getD i [] := by
  unfold table_set at h
  split at h
  · cases h
  · injection h with h2
    subst h2
    refine ⟨rfl, by simp, ?_⟩
    intro i hi
    simp [List.getD, List.getElem?_set_ne (Ne.symm hi)]

/-- A successful `create_table` returns the next table id and appends one
empty table, leaving the globals untouched. -/
theorem create_table_ok (L : Lua) (tid : Nat) (L1 : Lua)
    (h : create_table L = .ok (tid, L1)) :
    tid = L.tables.length ∧ L1.tables = L.tables ++ [[]] ∧ L1.globals = L.globals := by
  unfold create_table at h
  split at h
  · cases h
  · injection h with h2
    cases h2
    exact ⟨rfl, rfl, rfl⟩

/-- A successful `globals_set` only inserts the binding into the globals. -/
theorem globals_set_ok (L : Lua) (n : String) (tid : Nat) (L' : Lua)
    (h : globals_set L n tid = .ok L') :
    L'.globals = mapInsert n tid L.globals ∧ L'.tables = L.tables := by
  unfold globals_set at h
  split at h
  · cases h
  · injection h with h2
    subst h2
    exact ⟨rfl, rfl⟩

/-- Whatever happens inside the callable-installing loop, the globals are
untouched, the table heap keeps its length, and tables other than `tid`
are preserved. -/
theorem setFunctions_env (tid : Nat) (fns : List (String × Nat)) (L : Lua) :
    (setFunctions tid L fns).2.globals = L.globals ∧
    (setFunctions tid L fns).2.tables.length = L.tables.length ∧
    ∀ i, i ≠ tid → (setFunctions tid L fns).2.tables.getD i [] = L.tables.getD i [] := by
  induction fns generalizing L with
  | nil => exact ⟨rfl, rfl, fun i _ => rfl⟩
  | cons nf rest ih =>
      obtain ⟨n, f⟩ := nf
      unfold setFunctions
      cases h : table_set L tid n f with
      | error e => exact ⟨rfl, rfl, fun i _ => rfl⟩
      | ok L' =>
          obtain ⟨hg, hl, ht⟩ := table_set_ok L tid n f L' h
          obtain ⟨ihg, ihl, iht⟩ := ih L'
          exact ⟨ihg.trans hg, ihl.trans hl, fun i hi => (iht i hi).trans (ht i hi)⟩

/-- What one iteration of `register_all_plugins` does to the environment:
on failure the globals are untouched; on success exactly the plugin's name
is bound to a namespace table; in every case previously existing tables
are preserved and the table heap only grows. -/
theorem register_one_env (L : Lua) (p : PluginLua) :
    (∀ e, (register_one_plugin L p).1 = .error e →
      (register_one_plugin L p).2.globals = L.globals) ∧
    ((register_one_plugin L p).1 = .ok () →
      ∃ t, (register_one_plugin L p).2.globals = mapInsert p.name t L.globals) ∧
    L.tables.length ≤ (register_one_plugin L p).2.tables.length ∧
    ∀ i, i < L.tables.length →
      (register_one_plugin L p).2.tables.getD i [] = L.tables.getD i [] := by
  cases hc : create_table L with
  | error e' =>
      have hkey : register_one_plugin L p = (.error e', L) := by
        unfold register_one_plugin
        rw [hc]
      refine ⟨fun e h => by rw [hkey], fun h => ?_, ?_, fun i hi => by rw [hkey]⟩
      · rw [hkey] at h
        simp at h
      · rw [hkey]
  | ok pair =>
      obtain ⟨t, L1⟩ := pair
      obtain ⟨htid, htab, hglob⟩ := create_table_ok L t L1 hc
      subst htid
      obtain ⟨sg, sl, st⟩ := setFunctions_env L.tables.length p.get_lua_functions L1
      have hkey : register_one_plugin L p =
          (match setFunctions L.tables.length L1 p.get_lua_functions with
           | (Except.error e, L2) => (Except.error e, L2)
           | (Except.ok _, L2) =>
               match globals_set L2 p.name L.tables.length with
               | Except.error e => (Except.error e, L2)
               | Except.ok L3 => (Except.ok (), L3)) := by
        unfold register_one_plugin
        rw [hc]
      rcases hsp : setFunctions L.tables.length L1 p.get_lua_functions with ⟨r, L2⟩
      rw [hsp] at hkey sg sl st
      dsimp only at hkey sg sl st
      have hlen1 : L1.tables.length = L.tables.length + 1 := by
        rw [htab]; simp
      have hglob2 : L2.globals = L.globals := sg.trans hglob
      have hpres : ∀ i, i < L.tables.length →
          L2.tables.getD i [] = L.tables.getD i [] := by
        intro i hi
        have hne : i ≠ L.tables.length := by omega
        rw [st i hne, htab]
        simp [List.getD, List.getElem?_append, hi]
      cases r with
      | error e2 =>
          have hkey2 : register_one_plugin L p = (.error e2, L2) := by rw [hkey]
          refine ⟨fun e h => ?_, fun h => ?_, ?_, fun i hi => ?_⟩
          · rw [hkey2]
            exact hglob2
          · rw [hkey2] at h
            simp at h
          · rw [hkey2]
            show L.tables.length ≤ L2.tables.length
            omega
          · rw [hkey2]
            exact hpres i hi
      | ok u =>
          cases u
          have hkey2 : register_one_plugin L p =
              (match globals_set L2 p.name L.tables.length with
               | Except.error e => (Except.error e, L2)
               | Except.ok L3 => (Except.ok (), L3)) := by
            rw [hkey]
          cases hgs : globals_set L2 p.name L.tables.length with
          | error e3 =>
              have hkey3 : register_one_plugin L p = (.error e3, L2) := by
                rw [hkey2, hgs]
              refine ⟨fun e h => ?_, fun h => ?_, ?_, fun i hi => ?_⟩
              · rw [hkey3]
                exact hglob2
              · rw [hkey3] at h
                simp at h
              · rw [hkey3]
                show L.tables.length ≤ L2.tables.length
                omega
              · rw [hkey3]
                exact hpres i hi
          | ok L3 =>
              obtain ⟨gg, gt⟩ := globals_set_ok L2 p.name L.tables.length L3 hgs
              have hkey3 : register_one_plugin L p = (.ok (), L3) := by
                rw [hkey2, hgs]
              refine ⟨fun e h => ?_, fun h => ⟨L.tables.length, ?_⟩, ?_, fun i hi => ?_⟩
              · rw [hkey3] at h
                simp at h
              · rw [hkey3]
                show L3.globals = mapInsert p.name L.tables.length L.globals
                rw [gg, hglob2]
              · rw [hkey3]
                show L.tables.length ≤ L3.tables.length
                rw [gt]
                omega
              · rw [hkey3]
                show L3.tables.getD i [] = L.tables.getD i []
                rw [gt]
                exact hpres i hi

/-- Names already bound in the globals stay bound through the whole
registration loop. -/
theorem registerPlugins_globals_mono (ps : List (String × PluginLua)) (L : Lua)
    (k : String) (h : (mapGet k L.globals).isSome = true) :
    (mapGet k (registerPlugins ps L).2.globals).isSome = true := by
  induction ps generalizing L with
  | nil => exact h
  | cons ent rest ih =>
      obtain ⟨n, p⟩ := ent
      obtain ⟨hfail, hok, _, _⟩ := register_one_env L p
      have hkey : registerPlugins ((n, p) :: rest) L =
          (match register_one_plugin L p with
           | (Except.error e, L') => (Except.error e, L')
           | (Except.ok _, L') => registerPlugins rest L') := rfl
      rcases hr : register_one_plugin L p with ⟨r, L'⟩
      rw [hr] at hkey hfail hok
      dsimp only at hkey hfail hok
      cases r with
      | error e2 =>
          rw [hkey]
          show (mapGet k L'.globals).isSome = true
          rw [hfail e2 rfl]
          exact h
      | ok u =>
          cases u
          rw [hkey]
          obtain ⟨t, ht⟩ := hok rfl
          exact ih L' (by rw [ht]; exact mapGet_insert_isSome k p.name t L.globals h)

/-- After a fully successful registration pass, every processed plugin's
name is bound to a namespace table in the globals. -/
theorem registerPlugins_ok_names (ps : List (String × PluginLua)) (L L' : Lua)
    (h : registerPlugins ps L = (.ok (), L')) :
    ∀ q ∈ ps, (mapGet q.2.name L'.globals).isSome = true := by
  induction ps generalizing L with
  | nil =>
      intro q hq
      cases hq
  | cons ent rest ih =>
      obtain ⟨n, p⟩ := ent
      obtain ⟨_, hok, _, _⟩ := register_one_env L p
      have hkey : registerPlugins ((n, p) :: rest) L =
          (match register_one_plugin L p with
           | (Except.error e, L1) => (Except.error e, L1)
           | (Except.ok _, L1) => registerPlugins rest L1) := rfl
      rcases hr : register_one_plugin L p with ⟨r, L1⟩
      rw [hr] at hkey hok
      dsimp only at hkey hok
      rw [hkey] at h
      cases r with
      | error e2 => exact absurd h (by simp)
      | ok u =>
          cases u
          have h' : registerPlugins rest L1 = (.ok (), L') := h
          intro q hq
          rcases List.mem_cons.mp hq with hq1 | hq'
          · subst hq1
            obtain ⟨t, ht⟩ := hok rfl
            have h1 : (mapGet p.name L1.globals).isSome = true := by
              rw [ht, mapGet_insert_self]
              rfl
            have h2 := registerPlugins_globals_mono rest L1 p.name h1
            rw [h'] at h2
            exact h2
          · exact ih L1 h' q hq'

/-- The registration loop fails exactly when the registration of one
plugin fails after every earlier plugin registered successfully; the loop
stops at that point and the prefix's namespaces are still bound there. -/
theorem registerPlugins_abort (ps : List (String × PluginLua)) (L : Lua) (e : String)
    (h : (registerPlugins ps L).1 = .error e) :
    ∃ pre entry rest L1,
      ps = pre ++ entry :: rest ∧
      registerPlugins pre L = (.ok (), L1) ∧
      (register_one_plugin L1 entry.2).1 = .error e ∧
      registerPlugins ps L = (.error e, (register_one_plugin L1 entry.2).2) ∧
      ∀ q ∈ pre, (mapGet q.2.name L1.globals).isSome = true := by
  induction ps generalizing L with
  | nil => simp [registerPlugins] at h
  | cons ent rest' ih =>
      obtain ⟨n, p⟩ := ent
      obtain ⟨_, hok, _, _⟩ := register_one_env L p
      have hkey : registerPlugins ((n, p) :: rest') L =
          (match register_one_plugin L p with
           | (Except.error e1, L1) => (Except.error e1, L1)
           | (Except.ok _, L1) => registerPlugins rest' L1) := rfl
      rcases hr : register_one_plugin L p with ⟨r, L'⟩
      rw [hr] at hkey hok
      dsimp only at hkey hok
      cases r with
      | error e2 =>
          rw [hkey] at h
          have h2 : (Except.error e2 : Except String Unit) = .error e := h
          injection h2 with h3
          subst h3
          refine ⟨[], (n, p), rest', L, rfl, rfl, ?_, ?_, fun q hq => ?_⟩
          · show (register_one_plugin L p).1 = .error e2
            rw [hr]
          · show registerPlugins ((n, p) :: rest') L =
              (.error e2, (register_one_plugin L p).2)
            rw [hkey, hr]
          · cases hq
      | ok u =>
          cases u
          rw [hkey] at h
          have h' : (registerPlugins rest' L').1 = .error e := h
          obtain ⟨pre', entry, rest'', L1, hsplit, hpre, herr, heq, hnames⟩ := ih L' h'
          obtain ⟨t, ht⟩ := hok rfl
          have h1 : (mapGet p.name L'.globals).isSome = true := by
            rw [ht, mapGet_insert_self]
            rfl
          refine ⟨(n, p) :: pre', entry, rest'', L1, ?_, ?_, herr, ?_, ?_⟩
          · rw [hsplit]
            rfl
          · show registerPlugins ((n, p) :: pre') L = (.ok (), L1)
            have hkey2 : registerPlugins ((n, p) :: pre') L =
                (match register_one_plugin L p with
                 | (Except.error e1, L1) => (Except.error e1, L1)
                 | (Except.ok _, L1) => registerPlugins pre' L1) := rfl
            rw [hkey2, hr]
            exact hpre
          · show registerPlugins ((n, p) :: rest') L =
              (.error e, (register_one_plugin L1 entry.2).2)
            rw [hkey]
            exact heq
          · intro q hq
            rcases List.mem_cons.mp hq with hq1 | hq'
            · subst hq1
              have h2 := registerPlugins_globals_mono pre' L' p.name h1
              rw [hpre] at h2
              exact h2
            · exact hnames q hq'

/-- Claim C7: when an environment operation fails during
`register_all_plugins`, the call aborts at the first failing plugin
registration and returns that first error: every earlier plugin registered
successfully, nothing after the failure point runs, and nothing is rolled
back — the final environment is exactly the state at the failure, its
globals are the globals reached after the successful prefix (every prefix
plugin's namespace is still bound) and every table existing before the
failing iteration is preserved. -/
theorem register_all_plugins_abort_no_rollback (m : PluginManager) (L : Lua) (e : String)
    (h : (register_all_plugins m L).1 = .error e) :
    ∃ pre entry rest L1,
      m.plugins = pre ++ entry :: rest ∧
      registerPlugins pre L = (.ok (), L1) ∧
      (register_one_plugin L1 entry.2).1 = .error e ∧
      register_all_plugins m L = (.error e, (register_one_plugin L1 entry.2).2) ∧
      (register_all_plugins m L).2.globals = L1.globals ∧
      (∀ q ∈ pre, (mapGet q.2.name (register_all_plugins m L).2.globals).isSome = true) ∧
      ∀ i, i < L1.tables.length →
        (register_all_plugins m L).2.tables.getD i [] = L1.tables.getD i [] := by
  obtain ⟨pre, entry, rest, L1, hsplit, hpre, herr, heq, hnames⟩ :=
    registerPlugins_abort m.plugins L e h
  obtain ⟨hfail, _, _, htabs⟩ := register_one_env L1 entry.2
  have heq' : register_all_plugins m L = (.error e, (register_one_plugin L1 entry.2).2) :=
    heq
  have hg : (register_all_plugins m L).2.globals = L1.globals := by
    rw [heq']
    exact hfail e herr
  refine ⟨pre, entry, rest, L1, hsplit, hpre, herr, heq', hg, ?_, ?_⟩
  · intro q hq
    rw [hg]
    exact hnames q hq
  · intro i hi
    rw [heq']
    show (register_one_plugin L1 entry.2).2.tables.getD i [] = L1.tables.getD i []
    exact htabs i hi

/-- Claim C7 witness: a concrete environment whose fourth operation — the
`create_table` for the second plugin — fails. -/
theorem register_all_plugins_abort_no_rollback_witness :
    ∃ pre entry rest L1,
      managerAB.plugins = pre ++ entry :: rest ∧
      registerPlugins pre luaFailing = (.ok (), L1) ∧
      (register_one_plugin L1 entry.2).1 = .error "create_table failed" ∧
      register_all_plugins managerAB luaFailing =
        (.error "create_table failed", (register_one_plugin L1 entry.2).2) ∧
      (register_all_plugins managerAB luaFailing).2.globals = L1.globals ∧
      (∀ q ∈ pre,
        (mapGet q.2.name
          (register_all_plugins managerAB luaFailing).2.globals).isSome = true) ∧
      ∀ i, i < L1.tables.length →
        (register_all_plugins managerAB luaFailing).2.tables.getD i [] =
          L1.tables.getD i [] :=
  register_all_plugins_abort_no_rollback managerAB luaFailing "create_table failed"
    (by rfl)

/-- Claim C8: on the registry {A -> {f}, B -> {g}} a successful
`register_all_plugins` installs exactly the two global namespaces `A` and
`B`, each holding exactly its own plugin's callables and none of the
other's; and two plugins both exposing a callable named `run` do not
collide, since each plugin's callables are installed only inside its own
namespace table. -/
theorem register_all_plugins_namespaces :
    register_all_plugins managerAB luaEmpty =
      (.ok (), ⟨[[("f", 0)], [("g", 1)]], [("A", 0), ("B", 1)], 6, none⟩) ∧
    register_all_plugins managerRun luaEmpty =
      (.ok (), ⟨[[("run", 10)], [("run", 20)]], [("A", 0), ("B", 1)], 6, none⟩) := by
  constructor
  · rfl
  · rfl

/-- Claim C1 counterexample: a concrete `load_plugin` call in which opening
the library and resolving the factory symbol succeed but the plugin's
`on_load` fails. The error propagates and the instance is not indexed, but
the registry's load-order library list does NOT retain the opened handle:
`self.libraries.push(lib)` only runs after `on_load` succeeds, so the
library list stays empty and the handle (id 7) is dropped. -/
theorem load_plugin_onload_failure_library_not_retained :
    fileBadLoad.openOk = true ∧ fileBadLoad.symbolOk = true ∧
    (load_plugin PluginManager.new fileBadLoad).1 = .error (.onLoadFailed "boom") ∧
    (load_plugin PluginManager.new fileBadLoad).2.1.libraries = [] ∧
    ((load_plugin PluginManager.new fileBadLoad).2.1.libraries.contains
      fileBadLoad.libId) = false ∧
    Event.releaseLibrary fileBadLoad.libId ∈ (load_plugin PluginManager.new fileBadLoad).2.2 := by
  refine ⟨rfl, rfl, rfl, rfl, rfl, ?_⟩
  simp [load_plugin, PluginManager.new, fileBadLoad, pluginBadLoad]

/-- Claim C1 (amended): when opening the library and resolving the factory
symbol succeed but the plugin's `on_load` returns an error, the error
propagates to the caller, the plugin instance is dropped and not indexed,
and the opened library handle is NOT retained in the registry's load-order
library list: the whole manager is unchanged and the handle is released
when `load_plugin` returns. -/
theorem load_plugin_onload_failure (m : PluginManager) (file : LibraryFile) (e : String)
    (ho : file.openOk = true) (hs : file.symbolOk = true)
    (he : file.plugin.on_load = .error e) :
    load_plugin m file =
      (.error (.onLoadFailed e), m,
       [.onLoad file.plugin.name, .dropInstance file.plugin.name,
        .releaseLibrary file.libId]) := by
  simp [load_plugin, ho, hs, he]

/-- Claim C1 (amended) witness. -/
theorem load_plugin_onload_failure_witness :
    load_plugin PluginManager.new fileBadLoad =
      (.error (.onLoadFailed "boom"), PluginManager.new,
       [.onLoad "beta", .dropInstance "beta", .releaseLibrary 7]) :=
  load_plugin_onload_failure PluginManager.new fileBadLoad "boom" rfl rfl rfl

/-- Claim C5: when a plugin named N is already indexed, a successful
`load_plugin` or `register_plugin_instance` of another plugin also named N
replaces the registry slot for N with the new instance, and the displaced
instance's `on_unload` is never invoked: no `onUnload` event occurs on
this path. -/
theorem replace_does_not_invoke_on_unload (m : PluginManager) (file : LibraryFile)
    (p : PluginLua) :
    ((mapGet file.plugin.name m.plugins).isSome = true →
      (load_plugin m file).1 = .ok () →
        get_plugin (load_plugin m file).2.1 file.plugin.name = some file.plugin ∧
        ∀ ev ∈ (load_plugin m file).2.2, ∀ n, ev ≠ Event.onUnload n) ∧
    ((mapGet p.name m.plugins).isSome = true →
      (register_plugin_instance m p).1 = .ok () →
        get_plugin (register_plugin_instance m p).2.1 p.name = some p ∧
        ∀ ev ∈ (register_plugin_instance m p).2.2, ∀ n, ev ≠ Event.onUnload n) := by
  constructor
  · intro hsome hok
    unfold load_plugin at hok ⊢
    by_cases ho : file.openOk = false
    · simp [ho] at hok
    · by_cases hs : file.symbolOk = false
      · simp [ho, hs] at hok
      · rw [if_neg ho, if_neg hs] at hok ⊢
        cases hl : file.plugin.on_load with
        | error e => rw [hl] at hok; simp at hok
        | ok u =>
            constructor
            · simp [get_plugin, mapGet_insert_self]
            · cases hold : mapGet file.plugin.name m.plugins <;> simp [hold]
  · intro hsome hok
    unfold register_plugin_instance at hok ⊢
    cases hl : p.on_load with
    | error e => rw [hl] at hok; simp at hok
    | ok u =>
        constructor
        · simp [get_plugin, mapGet_insert_self]
        · cases hold : mapGet p.name m.plugins <;> simp [hold]

/-- Claim C5 witness. -/
theorem replace_does_not_invoke_on_unload_witness :
    get_plugin (load_plugin managerAlpha fileOk2).2.1 "alpha" = some pluginOk2 ∧
    ∀ ev ∈ (load_plugin managerAlpha fileOk2).2.2, ∀ n, ev ≠ Event.onUnload n :=
  (replace_does_not_invoke_on_unload managerAlpha fileOk2 pluginOk2).1 (by decide) (by decide)

/-- Claim C6: a plugin whose `on_load` errors during `load_plugin` or
`register_plugin_instance` is not inserted into the name-indexed map: the
plugin map is unchanged, so `get_plugin` on its name returns `none` unless
an instance with that name was already present before the failed call. -/
theorem failed_on_load_not_indexed (m : PluginManager) (file : LibraryFile)
    (p : PluginLua) (e e' : String) :
    (file.openOk = true → file.symbolOk = true → file.plugin.on_load = .error e →
      (load_plugin m file).2.1.plugins = m.plugins ∧
      (get_plugin m file.plugin.name = none →
        get_plugin (load_plugin m file).2.1 file.plugin.name = none)) ∧
    (p.on_load = .error e' →
      (register_plugin_instance m p).2.1.plugins = m.plugins ∧
      (get_plugin m p.name = none →
        get_plugin (register_plugin_instance m p).2.1 p.name = none)) := by
  constructor
  · intro ho hs he
    constructor
    · simp [load_plugin, ho, hs, he]
    · intro hnone
      simp [load_plugin, ho, hs, he, get_plugin]
      simpa [get_plugin] using hnone
  · intro he
    constructor
    · simp [register_plugin_instance, he]
    · intro hnone
      simp [register_plugin_instance, he, get_plugin]
      simpa [get_plugin] using hnone

/-- Claim C6 witness. -/
theorem failed_on_load_not_indexed_witness :
    (load_plugin PluginManager.new fileBadLoad).2.1.plugins = PluginManager.new.plugins ∧
    (get_plugin PluginManager.new "beta" = none →
      get_plugin (load_plugin PluginManager.new fileBadLoad).2.1 "beta" = none) :=
  (failed_on_load_not_indexed PluginManager.new fileBadLoad pluginOk "boom" "zz").1
    rfl rfl rfl

/-- Claim C10: for a name present in the registry, `unload_plugin` removes
the entry before invoking `on_unload`: an `on_unload` error propagates to
the caller, but the entry stays removed and the instance dropped, so a
following `get_plugin` returns `none` whether or not `unload_plugin`
returned an error. -/
theorem unload_plugin_removes_before_on_unload (m : PluginManager) (name : String)
    (p : PluginLua) (e : String) (hp : mapGet name m.plugins = some p) :
    (unload_plugin m name).2.1.plugins = mapRemove name m.plugins ∧
    get_plugin (unload_plugin m name).2.1 name = none ∧
    (unload_plugin m name).2.2 = [.onUnload name, .dropInstance p.name] ∧
    (p.on_unload = .error e → (unload_plugin m name).1 = .error (.onUnloadFailed e)) ∧
    (p.on_unload = .ok () → (unload_plugin m name).1 = .ok ()) := by
  refine ⟨?_, ?_, ?_, ?_, ?_⟩
  · simp [unload_plugin, hp]
  · simp [unload_plugin, hp, get_plugin, mapGet_remove_self]
  · simp [unload_plugin, hp]
  · intro hu; simp [unload_plugin, hp, hu]
  · intro hu; simp [unload_plugin, hp, hu]

/-- Claim C10 witness. -/
theorem unload_plugin_removes_before_on_unload_witness :
    (unload_plugin managerGamma "gamma").2.1.plugins = mapRemove "gamma" managerGamma.plugins ∧
    get_plugin (unload_plugin managerGamma "gamma").2.1 "gamma" = none ∧
    (unload_plugin managerGamma "gamma").2.2 =
      [.onUnload "gamma", .dropInstance "gamma"] ∧
    (pluginBadUnload.on_unload = .error "bye" →
      (unload_plugin managerGamma "gamma").1 = .error (.onUnloadFailed "bye")) ∧
    (pluginBadUnload.on_unload = .ok () → (unload_plugin managerGamma "gamma").1 = .ok ()) :=
  unload_plugin_removes_before_on_unload managerGamma "gamma" pluginBadUnload "bye" (by decide)
